import Mathlib

/-!
Shallow embedding of the ForestSathi geospatial fire-risk scoring engine
(`app_flask.py`), with proofs about its risk scorer, ignition estimator,
location resolver, history aggregator and heatmap generator.

Modelling conventions:
* Python floats are modelled as exact rationals (`ℚ`); `np.pi` is the exact
  rational value of the IEEE-754 double `np.pi` used by the source.
* `int(x)` is truncation toward zero, `round(x, d)` is round-half-to-even,
  as in Python; both are defined below.
* The current calendar month (`datetime.now().month` in the source) is an
  explicit `month` parameter, following the design note that the seasonal
  logic is a function of an evaluation month.
* The optional classifier is modelled by the maximum class probability it
  returns: `none` when the model or encoder is missing, the region name is
  unknown to the encoder, or inference raises (all of which the source's
  `try/except` turns into "leave the heuristic score unchanged"), and
  `some c` when `model.predict_proba` succeeds with maximum probability `c`.
* The event archive is a `List FireEvent` (`none` for "data file missing");
  the grid-cell cache built by `precompute_location_statistics` is an
  association list keyed by the grid key.  The Python grid key string
  `f"{grid_lat}_{grid_lon}"` is injective in the pair
  `(grid_lat, grid_lon)`, so the key is modelled as that pair.
* Dates (`acq_date`) are ISO `YYYY-MM-DD` strings; on such strings the
  lexicographic order used below agrees with the chronological order that
  pandas uses for `nlargest`.
-/

namespace ForestSathi

/-- Python `int(x)` applied to a float: truncation toward zero. -/
def pyInt (q : ℚ) : ℤ := if 0 ≤ q then ⌊q⌋ else -⌊-q⌋

/-- Python `round(x)`: round half to even. -/
def pyRoundInt (q : ℚ) : ℤ :=
  let f := ⌊q⌋
  let r := q - (f : ℚ)
  if r < 1/2 then f
  else if 1/2 < r then f + 1
  else if f % 2 = 0 then f else f + 1

/-- Python `round(x, d)`. -/
def pyRound (q : ℚ) (d : ℕ) : ℚ := (pyRoundInt (q * 10 ^ d) : ℚ) / 10 ^ d

/-- Thousands separators, as in the `f"{n:,}"` format: helper over reversed
digit lists, inserting a comma before every fourth, seventh, ... digit. -/
def commaRev : List Char → ℕ → List Char
  | [], _ => []
  | c :: cs, k =>
    if 0 < k ∧ k % 3 = 0 then ',' :: c :: commaRev cs (k + 1)
    else c :: commaRev cs (k + 1)

/-- Python `f"{n:,}"` for a natural number. -/
def formatComma (n : ℕ) : String :=
  String.mk ((commaRev (toString n).toList.reverse 0).reverse)

/-- Python `f"{x:.0f}"`. -/
def formatFix0 (q : ℚ) : String := toString (pyRoundInt q)

/-- Python `f"{x:.1f}"` (for the nonnegative quantities it is applied to). -/
def formatFix1 (q : ℚ) : String :=
  let r := pyRoundInt (q * 10)
  if r < 0 then "-" ++ toString (r.natAbs / 10) ++ "." ++ toString (r.natAbs % 10)
  else toString (r.toNat / 10) ++ "." ++ toString (r.toNat % 10)

/-- Sum of a list of rationals (pandas `.sum()`). -/
def sumQ (l : List ℚ) : ℚ := l.foldr (· + ·) 0

/-- pandas `.mean()` on a nonempty column. -/
def meanQ (l : List ℚ) : ℚ := sumQ l / l.length

/-- pandas `.max()` on a nonempty column (0 on an empty one, never used). -/
def maxQ : List ℚ → ℚ
  | [] => 0
  | x :: xs => xs.foldl max x

/-- pandas `.min()` on a nonempty column (0 on an empty one, never used). -/
def minQ : List ℚ → ℚ
  | [] => 0
  | x :: xs => xs.foldl min x

/-- pandas `.max()` over integer columns. -/
def maxZ : List ℤ → ℤ
  | [] => 0
  | x :: xs => xs.foldl max x

/-- pandas `.min()` over integer columns. -/
def minZ : List ℤ → ℤ
  | [] => 0
  | x :: xs => xs.foldl min x

/-- pandas `Series.mode().iloc[0]`: the most frequent value; `mode()` sorts
values ascending, so ties resolve to the smallest value.  `"Unknown"` on an
empty column (never reached: callers guard nonemptiness). -/
def pandasMode (l : List String) : String :=
  match l with
  | [] => "Unknown"
  | x :: _ =>
    l.foldl (fun b a =>
      if l.count a > l.count b ∨ (l.count a = l.count b ∧ a < b) then a else b) x

/-- One historical satellite detection row of the archive, after
`load_resources` has dropped rows with missing latitude/longitude/brightness
and derived `year` and `month` from `acq_date`. -/
structure FireEvent where
  latitude : ℚ
  longitude : ℚ
  brightness : ℚ
  frp : ℚ
  acq_date : String
  year : ℤ
  month : ℕ
  likely_cause : String
deriving Repr, DecidableEq

/-- One value of `location_stats_cache`, as built by
`precompute_location_statistics`. -/
structure GridCellStats where
  avg_brightness : ℚ
  max_brightness : ℚ
  std_brightness : ℚ
  fire_count : ℕ
  avg_frp : ℚ
  max_frp : ℚ
  years_with_fires : ℕ
  primary_cause : String
deriving Repr, DecidableEq

/-- The dict returned by `get_location_specific_stats`. -/
structure LocationStats where
  fire_count : ℕ
  avg_brightness : ℚ
  max_brightness : ℚ
  avg_frp : ℚ
  max_frp : ℚ
  years_with_fires : ℕ
  primary_cause : String
  fire_density : ℚ
deriving Repr, DecidableEq

/-- The land-cover fields of a `NEPAL_DISTRICTS` entry used by the scorer. -/
structure DistrictInfo where
  forest_cover : ℚ
  urban : Bool
deriving Repr, DecidableEq

/-- `np.pi` as the exact rational value of the IEEE-754 double. -/
def piF : ℚ := 884279719003555 / 281474976710656

/-- `get_grid_key`: quantize both coordinates with `int(x / 0.25) * 0.25`.
The source returns the string `f"{grid_lat}_{grid_lon}"`, injective in the
pair, which is modelled as the pair itself. -/
def get_grid_key (latitude longitude : ℚ) : ℚ × ℚ :=
  ((pyInt (latitude / 0.25) : ℚ) * 0.25, (pyInt (longitude / 0.25) : ℚ) * 0.25)

/-- The bounding-box membership test shared by the resolver, the history
aggregator and the heatmap generator. -/
def inBox (latitude longitude lat_range lng_range : ℚ) (e : FireEvent) : Bool :=
  decide (latitude - lat_range ≤ e.latitude ∧ e.latitude ≤ latitude + lat_range ∧
    longitude - lng_range ≤ e.longitude ∧ e.longitude ≤ longitude + lng_range)

/-- Lookup of a grid key in `location_stats_cache`. -/
def lookupCache (cache : List ((ℚ × ℚ) × GridCellStats)) (k : ℚ × ℚ) :
    Option GridCellStats :=
  (cache.find? (fun p => decide (p.1 = k))).map Prod.snd

/-- The fast-path translation of a cached grid cell into the resolver's
result dict (`fire_density = fire_count / 625`). -/
def statsOfCell (c : GridCellStats) : LocationStats :=
  { fire_count := c.fire_count
    avg_brightness := c.avg_brightness
    max_brightness := c.max_brightness
    avg_frp := c.avg_frp
    max_frp := c.max_frp
    years_with_fires := c.years_with_fires
    primary_cause := c.primary_cause
    fire_density := (c.fire_count : ℚ) / 625 }

/-- The slow-path aggregates of `get_location_specific_stats` over the
events matching the bounding box (`area = np.pi * radius_km²`,
`fire_density = count / area * 100`). -/
def aggregateNearby (nearby : List FireEvent) (radius_km : ℚ) : LocationStats :=
  let area := piF * radius_km * radius_km
  { fire_count := nearby.length
    avg_brightness := meanQ (nearby.map FireEvent.brightness)
    max_brightness := maxQ (nearby.map FireEvent.brightness)
    avg_frp := meanQ (nearby.map FireEvent.frp)
    max_frp := maxQ (nearby.map FireEvent.frp)
    years_with_fires := (nearby.map FireEvent.year).dedup.length
    primary_cause := pandasMode (nearby.map FireEvent.likely_cause)
    fire_density := (nearby.length : ℚ) / area * 100 }

/-- `get_location_specific_stats`: grid-cache fast path, then bounding-box
scan (`lat ± radius/111.0`, `lon ± radius/85.0`), `None` when the scan finds
nothing. -/
def get_location_specific_stats (fire_data : Option (List FireEvent))
    (location_stats_cache : List ((ℚ × ℚ) × GridCellStats))
    (latitude longitude : ℚ) (radius_km : ℚ) : Option LocationStats :=
  match fire_data with
  | none => none
  | some data =>
    match lookupCache location_stats_cache (get_grid_key latitude longitude) with
    | some cached => some (statsOfCell cached)
    | none =>
      let lat_range := radius_km / 111.0
      let lng_range := radius_km / 85.0
      let nearby := data.filter (inBox latitude longitude lat_range lng_range)
      if nearby.isEmpty then none
      else some (aggregateNearby nearby radius_km)

/-- Factor 1 of `calculate_risk_score`: fire-frequency tiers. -/
def frequency_score (fire_count : ℕ) : ℚ :=
  if fire_count > 1000 then 0.25
  else if fire_count > 500 then 0.20
  else if fire_count > 200 then 0.15
  else if fire_count > 100 then 0.10
  else if fire_count > 50 then 0.07
  else 0.03

/-- Factor 2 of `calculate_risk_score`: average-brightness tiers. -/
def intensity_score (avg_brightness : ℚ) : ℚ :=
  if avg_brightness > 350 then 0.20
  else if avg_brightness > 342 then 0.15
  else if avg_brightness > 335 then 0.10
  else if avg_brightness > 330 then 0.06
  else 0.03

/-- Factor 3 of `calculate_risk_score`: average-FRP tiers. -/
def frp_score (avg_frp : ℚ) : ℚ :=
  if avg_frp > 15 then 0.15
  else if avg_frp > 10 then 0.10
  else if avg_frp > 6 then 0.06
  else 0.03

/-- Factor 4 of `calculate_risk_score`: recurrence tiers. -/
def recurrence_score (years_with_fires : ℕ) : ℚ :=
  if years_with_fires ≥ 5 then 0.15
  else if years_with_fires ≥ 4 then 0.12
  else if years_with_fires ≥ 3 then 0.08
  else if years_with_fires ≥ 2 then 0.05
  else 0.02

/-- Factor 5 of `calculate_risk_score`: the seasonal multiplier, keyed on
the evaluation month. -/
def seasonal_factor (month : ℕ) : ℚ :=
  if month = 3 ∨ month = 4 ∨ month = 5 then 1.20
  else if month = 2 ∨ month = 6 then 1.08
  else if month = 11 ∨ month = 12 ∨ month = 1 then 0.88
  else 0.82

/-- Factor 6 of `calculate_risk_score`: forest-cover / urban adjustment. -/
def forest_adjustment (district_info : Option DistrictInfo) : ℚ :=
  match district_info with
  | none => 0
  | some d =>
    let cover :=
      if d.forest_cover > 0.55 then 0.12
      else if d.forest_cover > 0.40 then 0.08
      else if d.forest_cover > 0.25 then 0.04
      else 0
    if d.urban then cover - 0.10 else cover

/-- `calculate_risk_score`: `(final_score, risk_level, primary_cause)`.
With no stats: `(0.20, "Low", fixed message)`.  Otherwise the additive
heuristic, the seasonal multiplier, and the clamp to `[0.08, 0.95]`. -/
def calculate_risk_score (latitude longitude : ℚ)
    (location_stats : Option LocationStats) (district_info : Option DistrictInfo)
    (month : ℕ) : ℚ × String × String :=
  match location_stats with
  | none => (0.20, "Low", "No significant fire history detected in this area.")
  | some s =>
    let base_score : ℚ := 0.30
    let raw_score := base_score + frequency_score s.fire_count
      + intensity_score s.avg_brightness + frp_score s.avg_frp
      + recurrence_score s.years_with_fires + forest_adjustment district_info
    let final_score := min 0.95 (max 0.08 (raw_score * seasonal_factor month))
    let risk_level :=
      if final_score ≥ 0.65 then "High"
      else if final_score ≥ 0.40 then "Moderate"
      else "Low"
    (final_score, risk_level, s.primary_cause)

/-- The region-specific boilerplate appended by `generate_risk_reason`. -/
def regionContext (region_name : String) : Option String :=
  if region_name = "Terai Plains" then
    some "Agricultural practices and dry seasonal conditions in the Terai region contribute to elevated fire risk during dry months."
  else if region_name = "Mahabharat Range (Hills)" then
    some "Chir pine forests with accumulated dry needles create significant fuel load in the hill region, especially during pre-monsoon months."
  else if region_name = "High Himalayas" then
    some "Alpine vegetation and strong winds during dry season combined with limited firefighting access create fire-prone conditions in the Himalayan zone."
  else none

/-- `generate_risk_reason`: the space-joined narrative. -/
def generate_risk_reason (risk_level : String)
    (location_stats : Option LocationStats) (region_name : String)
    (latitude longitude : ℚ) : String :=
  let fire_count := match location_stats with | some s => s.fire_count | none => 0
  let avg_brightness : ℚ := match location_stats with | some s => s.avg_brightness | none => 330
  let primary_cause := match location_stats with | some s => s.primary_cause | none => "Unknown"
  let years_with_fires := match location_stats with | some s => s.years_with_fires | none => 0
  let fire_density : ℚ := match location_stats with | some s => s.fire_density | none => 0
  let reasons : List String :=
    (if fire_count > 0 then
      ["Analysis of " ++ formatComma fire_count ++ " historical fire events from NASA VIIRS satellite data"]
     else [])
    ++ (if years_with_fires > 1 then
      ["with fires recorded across " ++ toString years_with_fires ++ " different years"]
     else [])
    ++ (if fire_density > 2 then
      ["shows high fire density (" ++ formatFix1 fire_density ++ " fires per 100 km²)"]
     else if fire_density > 0.5 then
      ["indicates moderate fire activity (" ++ formatFix1 fire_density ++ " fires per 100 km²)"]
     else [])
    ++ (if avg_brightness > 345 then ["with high-intensity fire patterns detected"]
     else if avg_brightness > 338 then ["showing moderate intensity fire activity"]
     else [])
    ++ (if primary_cause ≠ "" ∧ primary_cause ≠ "Unknown" then
      ["Primary ignition source: " ++ primary_cause]
     else [])
    ++ (match regionContext region_name with | some c => [c] | none => [])
  let reasons :=
    if reasons.isEmpty then
      ["Risk assessment based on regional fire patterns and NASA satellite monitoring data."]
    else reasons
  String.intercalate " " reasons

/-- `predict_risk`: `(risk_level, risk_score, reason)` with the classifier
blend `risk_score * 0.65 + model_confidence * 0.35` applied only when model
and encoder are loaded, the stats are non-null and inference succeeds
(`classifier_confidence = some c`); any classifier failure is caught and
leaves the heuristic score unchanged. -/
def predict_risk (latitude longitude : ℚ) (region_name : String)
    (district_info : Option DistrictInfo) (location_stats : Option LocationStats)
    (month : ℕ) (classifier_confidence : Option ℚ) : String × ℚ × String :=
  let r := calculate_risk_score latitude longitude location_stats district_info month
  let risk_score := r.1
  let risk_level := r.2.1
  let reason := generate_risk_reason risk_level location_stats region_name latitude longitude
  let risk_score :=
    match location_stats, classifier_confidence with
    | some _, some model_confidence => risk_score * 0.65 + model_confidence * 0.35
    | _, _ => risk_score
  (risk_level, risk_score, reason)

/-- The output dict of `calculate_ignition_probability`. -/
structure IgnitionResult where
  probability : ℤ
  level : String
  factors : List String
deriving Repr, DecidableEq

/-- The part of `calculate_ignition_probability` before the seasonal step:
base 15 plus density, brightness, recurrence and FRP tiers, with the factor
strings appended in source order. -/
def ignitionPreSeasonal (s : LocationStats) : ℤ × List String :=
  let d :=
    if s.fire_density > 3 then
      ((28 : ℤ), ["High historical fire density: " ++ formatFix1 s.fire_density ++ " fires per 100 km²"])
    else if s.fire_density > 1.5 then
      (18, ["Moderate fire density: " ++ formatFix1 s.fire_density ++ " fires per 100 km²"])
    else if s.fire_density > 0.5 then
      (10, ["Low fire density: " ++ formatFix1 s.fire_density ++ " fires per 100 km²"])
    else
      (3, ["Minimal historical fire activity in this area"])
  let b :=
    if s.avg_brightness > 348 then
      ((15 : ℤ), ["High intensity fires detected - avg brightness " ++ formatFix0 s.avg_brightness ++ "K"])
    else if s.avg_brightness > 340 then
      (10, ["Moderate fire intensity - avg brightness " ++ formatFix0 s.avg_brightness ++ "K"])
    else if s.avg_brightness > 333 then
      (5, ["Standard fire intensity patterns - " ++ formatFix0 s.avg_brightness ++ "K avg"])
    else (0, [])
  let y :=
    if s.years_with_fires ≥ 5 then
      ((12 : ℤ), ["Consistent annual fire recurrence (" ++ toString s.years_with_fires ++ " years)"])
    else if s.years_with_fires ≥ 3 then
      (7, ["Regular fire pattern detected (" ++ toString s.years_with_fires ++ " years)"])
    else if s.years_with_fires ≥ 2 then
      (4, ["Some recurrence detected (" ++ toString s.years_with_fires ++ " years)"])
    else (0, [])
  let f :=
    if s.avg_frp > 12 then
      ((8 : ℤ), ["High fire radiative power (" ++ formatFix1 s.avg_frp ++ " MW)"])
    else if s.avg_frp > 7 then
      (4, ["Moderate fire energy release (" ++ formatFix1 s.avg_frp ++ " MW)"])
    else (0, [])
  (15 + d.1 + b.1 + y.1 + f.1, d.2 ++ b.2 ++ y.2 ++ f.2)

/-- The seasonal step of `calculate_ignition_probability`: months 3-5
`int(p * 1.25)`, months 2 and 6 `int(p * 1.10)`, months 7-9
`int(p * 0.70)`, months 11, 12 and 1 `int(p * 0.85)`, and otherwise
(month 10, or a month outside 1-12) `p` unchanged with no factor. -/
def ignitionSeasonalStep (month : ℕ) (p : ℤ) : ℤ × List String :=
  if month = 3 ∨ month = 4 ∨ month = 5 then
    (pyInt ((p : ℚ) * 1.25), ["⚠️ Currently in peak fire season (March-May)"])
  else if month = 2 ∨ month = 6 then
    (pyInt ((p : ℚ) * 1.10), ["Approaching/leaving fire season"])
  else if month = 7 ∨ month = 8 ∨ month = 9 then
    (pyInt ((p : ℚ) * 0.70), ["Monsoon season - reduced fire risk"])
  else if month = 11 ∨ month = 12 ∨ month = 1 then
    (pyInt ((p : ℚ) * 0.85), ["Post-monsoon/winter - moderate conditions"])
  else (p, [])

/-- The regional bonus of `calculate_ignition_probability`. -/
def regionalBonus (region_name : String) : ℤ × List String :=
  if region_name = "Terai Plains" then
    (6, ["Terai region: agricultural burning common"])
  else if region_name = "Mahabharat Range (Hills)" then
    (10, ["Hill region: pine needle fuel accumulation"])
  else if region_name = "High Himalayas" then
    (4, ["Alpine zone: dry shrubs and wind exposure"])
  else (0, [])

/-- `calculate_ignition_probability`: null stats give the fixed default;
otherwise base + tiers, seasonal step, regional bonus, clamp to `[5, 92]`,
level thresholds 55 / 30. -/
def calculate_ignition_probability (latitude longitude : ℚ)
    (location_stats : Option LocationStats) (region_name : String)
    (month : ℕ) : IgnitionResult :=
  match location_stats with
  | none =>
    { probability := 12, level := "Low",
      factors := ["Insufficient historical data - area shows minimal fire activity"] }
  | some s =>
    let pre := ignitionPreSeasonal s
    let seas := ignitionSeasonalStep month pre.1
    let reg := regionalBonus region_name
    let final_prob := min 92 (max 5 (seas.1 + reg.1))
    let level :=
      if final_prob ≥ 55 then "High"
      else if final_prob ≥ 30 then "Moderate"
      else "Low"
    { probability := final_prob, level := level, factors := pre.2 ++ seas.2 ++ reg.2 }

/-- Reference computation following the claim's words: the ignition
probability with a forced seasonal multiplier `f` applied as
`int(p * f)` before the regional bonus and the clamp.  Used only to compare
the source's behaviour against the claimed "exactly one of the four
multipliers" policy. -/
def ignitionWithMult (s : LocationStats) (region_name : String) (f : ℚ) : ℤ :=
  min 92 (max 5 (pyInt (((ignitionPreSeasonal s).1 : ℚ) * f) + (regionalBonus region_name).1))

/-- One entry of the `recent_fires` list of the history summary. -/
structure RecentFire where
  latitude : ℚ
  longitude : ℚ
  brightness : ℚ
  acq_date : String
  frp : ℚ
  likely_cause : String
deriving Repr, DecidableEq

/-- The `stats` dict of the history summary.  The empty-match branch of the
source builds a smaller dict; the keys it omits (`max_brightness`,
`max_frp`, `years_analyzed`, `first_record`, `last_record`) are modelled as
`Option` fields set to `none` there. -/
structure HistoryStats where
  total_nearby_fires : ℕ
  avg_brightness : ℚ
  avg_frp : ℚ
  primary_cause : String
  peak_month : String
  fire_density_per_100sqkm : ℚ
  max_brightness : Option ℚ
  max_frp : Option ℚ
  years_analyzed : Option ℕ
  first_record : Option String
  last_record : Option String
deriving Repr, DecidableEq

/-- The dict returned by `get_nearby_fire_history`. -/
structure FireHistorySummary where
  yearly_counts : List (ℤ × ℕ)
  monthly_distribution : List (ℕ × ℕ)
  recent_fires : List RecentFire
  stats : HistoryStats
  search_radius_km : ℚ
deriving Repr, DecidableEq

/-- The `month_names` dict with its `.get(_, 'April')` default. -/
def monthName (m : ℕ) : String :=
  match m with
  | 1 => "January" | 2 => "February" | 3 => "March" | 4 => "April"
  | 5 => "May" | 6 => "June" | 7 => "July" | 8 => "August"
  | 9 => "September" | 10 => "October" | 11 => "November" | 12 => "December"
  | _ => "April"

/-- pandas `groupby(...).size().to_dict()` over an integer column: counts
keyed by the distinct values in ascending key order. -/
def groupCountsZ (l : List ℤ) : List (ℤ × ℕ) :=
  (l.dedup.mergeSort (fun a b => decide (a ≤ b))).map (fun k => (k, l.count k))

/-- pandas `groupby(...).size().to_dict()` over the month column. -/
def groupCountsN (l : List ℕ) : List (ℕ × ℕ) :=
  (l.dedup.mergeSort (fun a b => decide (a ≤ b))).map (fun k => (k, l.count k))

/-- Python `max(monthly_counts, key=monthly_counts.get)`: the first key of
maximal count in iteration (ascending-key) order. -/
def peakOf (counts : List (ℕ × ℕ)) : ℕ × ℕ :=
  match counts with
  | [] => (0, 0)
  | c :: cs => cs.foldl (fun best x => if x.2 > best.2 then x else best) c

/-- pandas `nlargest(n, 'acq_date')` with ISO date strings: stable
descending sort by date, first `n` rows. -/
def nlargestByDate (l : List FireEvent) (n : ℕ) : List FireEvent :=
  (l.mergeSort (fun a b => decide (b.acq_date ≤ a.acq_date))).take n

/-- The all-zero summary returned when even the widened scan is empty. -/
def emptyHistorySummary (actual_radius : ℚ) : FireHistorySummary :=
  { yearly_counts := []
    monthly_distribution := []
    recent_fires := []
    stats :=
      { total_nearby_fires := 0
        avg_brightness := 0
        avg_frp := 0
        primary_cause := "No fire history detected"
        peak_month := "N/A"
        fire_density_per_100sqkm := 0
        max_brightness := none
        max_frp := none
        years_analyzed := none
        first_record := none
        last_record := none }
    search_radius_km := actual_radius }

/-- The nonempty-match branch of `get_nearby_fire_history`. -/
def buildHistorySummary (nearby : List FireEvent) (actual_radius : ℚ) :
    FireHistorySummary :=
  let yearly_counts := groupCountsZ (nearby.map FireEvent.year)
  let monthly_counts := groupCountsN (nearby.map FireEvent.month)
  let peak_month :=
    if monthly_counts.isEmpty then "April" else monthName (peakOf monthly_counts).1
  let recent := (nlargestByDate nearby 5).map (fun e =>
    { latitude := pyRound e.latitude 4
      longitude := pyRound e.longitude 4
      brightness := pyRound e.brightness 1
      acq_date := e.acq_date
      frp := pyRound e.frp 2
      likely_cause := e.likely_cause : RecentFire })
  let area_sq_km := piF * actual_radius * actual_radius
  let fire_density := ((nearby.length : ℚ) / area_sq_km) * 100
  { yearly_counts := yearly_counts
    monthly_distribution := monthly_counts
    recent_fires := recent
    stats :=
      { total_nearby_fires := nearby.length
        avg_brightness := pyRound (meanQ (nearby.map FireEvent.brightness)) 1
        avg_frp := pyRound (meanQ (nearby.map FireEvent.frp)) 2
        primary_cause := pandasMode (nearby.map FireEvent.likely_cause)
        peak_month := peak_month
        fire_density_per_100sqkm := pyRound fire_density 2
        max_brightness := some (pyRound (maxQ (nearby.map FireEvent.brightness)) 1)
        max_frp := some (pyRound (maxQ (nearby.map FireEvent.frp)) 2)
        years_analyzed := some (nearby.map FireEvent.year).dedup.length
        first_record := some (toString (minZ (nearby.map FireEvent.year)))
        last_record := some (toString (maxZ (nearby.map FireEvent.year))) }
    search_radius_km := actual_radius }

/-- `get_nearby_fire_history`: bounding-box scan at `radius_km`, one retry
with doubled ranges and `actual_radius = radius_km * 2`, then either the
full summary or the all-zero summary (never `None` once the archive is
loaded: the source's `except` branch is unreachable for well-formed data). -/
def get_nearby_fire_history (fire_data : Option (List FireEvent))
    (latitude longitude : ℚ) (radius_km : ℚ) : Option FireHistorySummary :=
  match fire_data with
  | none => none
  | some data =>
    let lat_range := radius_km / 111.0
    let lng_range := radius_km / 85.0
    let nearby := data.filter (inBox latitude longitude lat_range lng_range)
    if nearby.isEmpty then
      let nearby2 := data.filter (inBox latitude longitude (lat_range * 2) (lng_range * 2))
      if nearby2.isEmpty then some (emptyHistorySummary (radius_km * 2))
      else some (buildHistorySummary nearby2 (radius_km * 2))
    else some (buildHistorySummary nearby radius_km)

/-- One point of the heatmap list. -/
structure HeatPoint where
  lat : ℚ
  lng : ℚ
  intensity : ℚ
deriving Repr, DecidableEq

/-- The bounded sample drawn by `nearby.sample(n=3000, random_state=42)`
when more than 3000 events match.  With the fixed seed the draw is a
deterministic function of the input rows; the particular pseudo-random
choice of 3000 rows is modelled as the first 3000 rows. -/
def sampleSeed42 (nearby : List FireEvent) : List FireEvent := nearby.take 3000

/-- The sampling and normalization part of `get_location_heatmap`, applied
to the nonempty matching set. -/
def heatmapPoints (nearby : List FireEvent) : List HeatPoint :=
  let sample := if nearby.length > 3000 then sampleSeed42 nearby else nearby
  let max_brightness := maxQ (sample.map FireEvent.brightness)
  let min_brightness := minQ (sample.map FireEvent.brightness)
  let brightness_range :=
    if max_brightness ≠ min_brightness then max_brightness - min_brightness else 1
  sample.map (fun e =>
    { lat := pyRound e.latitude 4
      lng := pyRound e.longitude 4
      intensity := pyRound ((e.brightness - min_brightness) / brightness_range) 2 })

/-- `get_location_heatmap`: bounding-box scan, bounded sample, min-max
brightness normalization with the degenerate range replaced by 1. -/
def get_location_heatmap (fire_data : Option (List FireEvent))
    (latitude longitude : ℚ) (radius_km : ℚ) : List HeatPoint :=
  match fire_data with
  | none => []
  | some data =>
    let lat_range := radius_km / 111.0
    let lng_range := radius_km / 85.0
    let nearby := data.filter (inBox latitude longitude lat_range lng_range)
    if nearby.isEmpty then []
    else heatmapPoints nearby

/-- The cell of the claimed key semantics: the nearest lower multiple of
0.25 (floor), stated for comparison with the source's `int()` truncation. -/
def floorCell (latitude longitude : ℚ) : ℤ × ℤ :=
  (⌊latitude / 0.25⌋, ⌊longitude / 0.25⌋)

/-! ### Helper lemmas -/

theorem pyInt_eq_floor {q : ℚ} (h : 0 ≤ q) : pyInt q = ⌊q⌋ := if_pos h

theorem grid_key_floor {latitude longitude : ℚ} (h1 : 0 ≤ latitude) (h2 : 0 ≤ longitude) :
    get_grid_key latitude longitude
      = ((⌊latitude / 0.25⌋ : ℚ) * 0.25, (⌊longitude / 0.25⌋ : ℚ) * 0.25) := by
  unfold get_grid_key
  rw [pyInt_eq_floor (div_nonneg h1 (by norm_num)),
    pyInt_eq_floor (div_nonneg h2 (by norm_num))]

theorem frequency_score_bounds (c : ℕ) :
    0.03 ≤ frequency_score c ∧ frequency_score c ≤ 0.25 := by
  unfold frequency_score; split_ifs <;> norm_num

theorem intensity_score_bounds (b : ℚ) :
    0.03 ≤ intensity_score b ∧ intensity_score b ≤ 0.20 := by
  unfold intensity_score; split_ifs <;> norm_num

theorem frp_score_bounds (f : ℚ) :
    0.03 ≤ frp_score f ∧ frp_score f ≤ 0.15 := by
  unfold frp_score; split_ifs <;> norm_num

theorem recurrence_score_bounds (y : ℕ) :
    0.02 ≤ recurrence_score y ∧ recurrence_score y ≤ 0.15 := by
  unfold recurrence_score; split_ifs <;> norm_num

theorem seasonal_factor_bounds (m : ℕ) :
    0.82 ≤ seasonal_factor m ∧ seasonal_factor m ≤ 1.20 := by
  unfold seasonal_factor; split_ifs <;> norm_num

theorem forest_adjustment_bounds (d : Option DistrictInfo) :
    -0.10 ≤ forest_adjustment d ∧ forest_adjustment d ≤ 0.12 := by
  cases d with
  | none => norm_num [forest_adjustment]
  | some d => simp only [forest_adjustment]; split_ifs <;> norm_num

/-- The heuristic score with non-null stats lies in `[0.2542, 0.95]`:
`raw ∈ [0.31, 1.17]`, the seasonal factor in `[0.82, 1.20]`, then the
clamp. -/
theorem calculate_risk_score_some_bounds (latitude longitude : ℚ) (s : LocationStats)
    (district_info : Option DistrictInfo) (month : ℕ) :
    0.2542 ≤ (calculate_risk_score latitude longitude (some s) district_info month).1
    ∧ (calculate_risk_score latitude longitude (some s) district_info month).1 ≤ 0.95 := by
  have hf := frequency_score_bounds s.fire_count
  have hi := intensity_score_bounds s.avg_brightness
  have hp := frp_score_bounds s.avg_frp
  have hr := recurrence_score_bounds s.years_with_fires
  have ha := forest_adjustment_bounds district_info
  have hs := seasonal_factor_bounds month
  have hrepr : (calculate_risk_score latitude longitude (some s) district_info month).1
      = min 0.95 (max 0.08 ((0.30 + frequency_score s.fire_count
          + intensity_score s.avg_brightness + frp_score s.avg_frp
          + recurrence_score s.years_with_fires + forest_adjustment district_info)
          * seasonal_factor month)) := rfl
  rw [hrepr]
  set raw := 0.30 + frequency_score s.fire_count + intensity_score s.avg_brightness
    + frp_score s.avg_frp + recurrence_score s.years_with_fires
    + forest_adjustment district_info with hraw
  have hraw_lo : (0.31 : ℚ) ≤ raw := by rw [hraw]; linarith [hf.1, hi.1, hp.1, hr.1, ha.1]
  have hprod_lo : (0.2542 : ℚ) ≤ raw * seasonal_factor month := by
    have := mul_le_mul hraw_lo hs.1 (by norm_num)
      (le_trans (by norm_num : (0:ℚ) ≤ 0.31) hraw_lo)
    linarith
  constructor
  · exact le_min (by norm_num) (le_trans hprod_lo (le_max_right _ _))
  · exact min_le_left _ _

theorem predict_risk_score_no_blend (latitude longitude : ℚ) (region_name : String)
    (district_info : Option DistrictInfo) (location_stats : Option LocationStats)
    (month : ℕ) :
    (predict_risk latitude longitude region_name district_info location_stats month none).2.1
      = (calculate_risk_score latitude longitude location_stats district_info month).1 := by
  cases location_stats <;> rfl

theorem predict_risk_score_blend (latitude longitude : ℚ) (region_name : String)
    (district_info : Option DistrictInfo) (s : LocationStats) (month : ℕ) (c : ℚ) :
    (predict_risk latitude longitude region_name district_info (some s) month (some c)).2.1
      = (calculate_risk_score latitude longitude (some s) district_info month).1 * 0.65
        + c * 0.35 := rfl

/-! ### C1 -/

/-- C1 (amended): for every input the heuristic score of
`calculate_risk_score` lies within `[0.08, 0.95]`, and the score returned by
`predict_risk` lies within `[0.08, 0.9675]`: the classifier blend
`0.65·heuristic + 0.35·confidence` is not re-clamped to `[0.08, 0.95]` and
can reach `0.65·0.95 + 0.35·1 = 0.9675`. -/
theorem risk_score_bounds (latitude longitude : ℚ) (region_name : String)
    (district_info : Option DistrictInfo) (location_stats : Option LocationStats)
    (month : ℕ) (classifier_confidence : Option ℚ)
    (hconf : ∀ c, classifier_confidence = some c → 0 ≤ c ∧ c ≤ 1) :
    (0.08 ≤ (calculate_risk_score latitude longitude location_stats district_info month).1
      ∧ (calculate_risk_score latitude longitude location_stats district_info month).1 ≤ 0.95)
    ∧ (0.08 ≤ (predict_risk latitude longitude region_name district_info location_stats
          month classifier_confidence).2.1
      ∧ (predict_risk latitude longitude region_name district_info location_stats
          month classifier_confidence).2.1 ≤ 0.9675) := by
  cases location_stats with
  | none =>
    have h1 : (calculate_risk_score latitude longitude none district_info month).1 = 0.20 := rfl
    cases classifier_confidence with
    | none =>
      rw [predict_risk_score_no_blend, h1]
      norm_num
    | some c =>
      have h2 : (predict_risk latitude longitude region_name district_info none month
          (some c)).2.1 = 0.20 := rfl
      rw [h1, h2]
      norm_num
  | some s =>
    have hb := calculate_risk_score_some_bounds latitude longitude s district_info month
    refine ⟨⟨by linarith [hb.1], hb.2⟩, ?_⟩
    cases classifier_confidence with
    | none =>
      rw [predict_risk_score_no_blend]
      constructor <;> linarith [hb.1, hb.2]
    | some c =>
      obtain ⟨hc0, hc1⟩ := hconf c rfl
      rw [predict_risk_score_blend]
      constructor <;> nlinarith [hb.1, hb.2]

/-- C1 witness: the bounds at a concrete blended input. -/
theorem risk_score_bounds_witness :
    (0.08 ≤ (calculate_risk_score 27.5 84.3
        (some ⟨620, 344, 360, 8, 20, 4, "Unknown", 620 / 625⟩) none 4).1
      ∧ (calculate_risk_score 27.5 84.3
        (some ⟨620, 344, 360, 8, 20, 4, "Unknown", 620 / 625⟩) none 4).1 ≤ 0.95)
    ∧ (0.08 ≤ (predict_risk 27.5 84.3 "Terai Plains" none
        (some ⟨620, 344, 360, 8, 20, 4, "Unknown", 620 / 625⟩) 4 (some (1/2))).2.1
      ∧ (predict_risk 27.5 84.3 "Terai Plains" none
        (some ⟨620, 344, 360, 8, 20, 4, "Unknown", 620 / 625⟩) 4 (some (1/2))).2.1 ≤ 0.9675) :=
  risk_score_bounds 27.5 84.3 "Terai Plains" none
    (some ⟨620, 344, 360, 8, 20, 4, "Unknown", 620 / 625⟩) 4 (some (1/2))
    (fun c hc => by cases hc; norm_num)

/-- The maximal-tier statistics used by the C1 counterexample. -/
def statsC1 : LocationStats :=
  { fire_count := 1001, avg_brightness := 351, max_brightness := 360, avg_frp := 16,
    max_frp := 30, years_with_fires := 5, primary_cause := "Unknown", fire_density := 4 }

/-- The high-forest-cover district used by the C1 counterexample. -/
def districtC1 : DistrictInfo := { forest_cover := 0.56, urban := false }

/-- C1 counterexample: with every tier maximal (heuristic clamped to 0.95)
and classifier confidence 1, the returned blended score is 0.9675, outside
the claimed `[0.08, 0.95]`. -/
theorem blended_score_exceeds_clamp :
    (predict_risk 27.5 84.3 "Terai Plains" (some districtC1) (some statsC1) 4 (some 1)).2.1
      = 0.9675
    ∧ ¬ ((predict_risk 27.5 84.3 "Terai Plains" (some districtC1) (some statsC1) 4
        (some 1)).2.1 ≤ 0.95) := by
  have h0 : (calculate_risk_score 27.5 84.3 (some statsC1) (some districtC1) 4).1
      = min 0.95 (max 0.08 ((0.30 + frequency_score statsC1.fire_count
        + intensity_score statsC1.avg_brightness + frp_score statsC1.avg_frp
        + recurrence_score statsC1.years_with_fires
        + forest_adjustment (some districtC1)) * seasonal_factor 4)) := rfl
  have h : (calculate_risk_score 27.5 84.3 (some statsC1) (some districtC1) 4).1 = 0.95 := by
    rw [h0]
    norm_num [statsC1, districtC1, frequency_score, intensity_score, frp_score,
      recurrence_score, seasonal_factor, forest_adjustment, min_def, max_def]
  rw [predict_risk_score_blend, h]
  norm_num

/-! ### C2 -/

/-- The spec's worked-example statistics. -/
def statsC2 : LocationStats :=
  { fire_count := 620, avg_brightness := 344, max_brightness := 360, avg_frp := 8,
    max_frp := 20, years_with_fires := 4, primary_cause := "Unknown",
    fire_density := 620 / 625 }

/-- C2 counterexample: at `avg_brightness = 344` the intensity tier taken is
`> 342 → 0.15`, not the claimed 0.10, so the term sum is 0.83, not 0.78. -/
theorem example_terms_counterexample :
    intensity_score statsC2.avg_brightness = 0.15
    ∧ intensity_score statsC2.avg_brightness ≠ 0.10
    ∧ 0.30 + frequency_score statsC2.fire_count + intensity_score statsC2.avg_brightness
        + frp_score statsC2.avg_frp + recurrence_score statsC2.years_with_fires = 0.83
    ∧ 0.30 + frequency_score statsC2.fire_count + intensity_score statsC2.avg_brightness
        + frp_score statsC2.avg_frp + recurrence_score statsC2.years_with_fires ≠ 0.78 := by
  refine ⟨?_, ?_, ?_, ?_⟩ <;>
    norm_num [statsC2, frequency_score, intensity_score, frp_score, recurrence_score]

/-- C2 (amended): for the example statistics the terms are frequency 0.20,
intensity 0.15, FRP 0.06, recurrence 0.12 plus base 0.30, summing to 0.83;
multiplied by the April seasonal factor 1.20 this gives 0.996, clamped to
0.95, and the returned level is "High". -/
theorem example_april_amended :
    frequency_score statsC2.fire_count = 0.20
    ∧ intensity_score statsC2.avg_brightness = 0.15
    ∧ frp_score statsC2.avg_frp = 0.06
    ∧ recurrence_score statsC2.years_with_fires = 0.12
    ∧ (0.30 + 0.20 + 0.15 + 0.06 + 0.12 : ℚ) = 0.83
    ∧ seasonal_factor 4 = 1.20
    ∧ (0.83 * 1.20 : ℚ) = 0.996
    ∧ calculate_risk_score 27.5 84.3 (some statsC2) none 4 = (0.95, "High", "Unknown") := by
  have h0 : (calculate_risk_score 27.5 84.3 (some statsC2) none 4).1
      = min 0.95 (max 0.08 ((0.30 + frequency_score statsC2.fire_count
        + intensity_score statsC2.avg_brightness + frp_score statsC2.avg_frp
        + recurrence_score statsC2.years_with_fires
        + forest_adjustment none) * seasonal_factor 4)) := rfl
  have hsc : (calculate_risk_score 27.5 84.3 (some statsC2) none 4).1 = 0.95 := by
    rw [h0]
    norm_num [statsC2, frequency_score, intensity_score, frp_score,
      recurrence_score, seasonal_factor, forest_adjustment, min_def, max_def]
  have hlv : (calculate_risk_score 27.5 84.3 (some statsC2) none 4).2.1
      = (if (calculate_risk_score 27.5 84.3 (some statsC2) none 4).1 ≥ 0.65 then "High"
         else if (calculate_risk_score 27.5 84.3 (some statsC2) none 4).1 ≥ 0.40 then "Moderate"
         else "Low") := rfl
  have hlv' : (calculate_risk_score 27.5 84.3 (some statsC2) none 4).2.1 = "High" := by
    rw [hlv, hsc]; norm_num
  have hcs : (calculate_risk_score 27.5 84.3 (some statsC2) none 4).2.2 = "Unknown" := rfl
  refine ⟨?_, ?_, ?_, ?_, by norm_num, ?_, by norm_num, ?_⟩
  · norm_num [statsC2, frequency_score]
  · norm_num [statsC2, intensity_score]
  · norm_num [statsC2, frp_score]
  · norm_num [statsC2, recurrence_score]
  · norm_num [seasonal_factor]
  · exact Prod.ext hsc (Prod.ext hlv' hcs)

/-! ### C3 -/

/-- C3 (amended): for every pre-seasonal probability the estimator's
seasonal step applies ×1.25 (with the warning factor string) in months 3-5,
×1.10 in months 2 and 6, ×0.70 in months 7-9 and ×0.85 in months 11, 12 and
1, truncating to an integer after the multiplication; in month 10 (October)
no multiplier is applied at all.  The estimator's probability is the clamped
sum of this step's output and the regional bonus. -/
theorem ignition_seasonal_tiers (p : ℤ) (s : LocationStats) (region_name : String)
    (latitude longitude : ℚ) (month : ℕ) :
    (ignitionSeasonalStep 3 p).1 = pyInt ((p : ℚ) * 1.25)
    ∧ (ignitionSeasonalStep 4 p).1 = pyInt ((p : ℚ) * 1.25)
    ∧ (ignitionSeasonalStep 5 p).1 = pyInt ((p : ℚ) * 1.25)
    ∧ (ignitionSeasonalStep 3 p).2 = ["⚠️ Currently in peak fire season (March-May)"]
    ∧ (ignitionSeasonalStep 2 p).1 = pyInt ((p : ℚ) * 1.10)
    ∧ (ignitionSeasonalStep 6 p).1 = pyInt ((p : ℚ) * 1.10)
    ∧ (ignitionSeasonalStep 7 p).1 = pyInt ((p : ℚ) * 0.70)
    ∧ (ignitionSeasonalStep 8 p).1 = pyInt ((p : ℚ) * 0.70)
    ∧ (ignitionSeasonalStep 9 p).1 = pyInt ((p : ℚ) * 0.70)
    ∧ (ignitionSeasonalStep 11 p).1 = pyInt ((p : ℚ) * 0.85)
    ∧ (ignitionSeasonalStep 12 p).1 = pyInt ((p : ℚ) * 0.85)
    ∧ (ignitionSeasonalStep 1 p).1 = pyInt ((p : ℚ) * 0.85)
    ∧ ignitionSeasonalStep 10 p = (p, [])
    ∧ (calculate_ignition_probability latitude longitude (some s) region_name month).probability
        = min 92 (max 5 ((ignitionSeasonalStep month (ignitionPreSeasonal s).1).1
            + (regionalBonus region_name).1)) := by
  refine ⟨rfl, rfl, rfl, rfl, rfl, rfl, rfl, rfl, rfl, rfl, rfl, rfl, rfl, rfl⟩

/-- The statistics used by the C3 counterexample: pre-seasonal probability
15 + 28 + 15 + 12 + 8 = 78. -/
def statsC3 : LocationStats :=
  { fire_count := 500, avg_brightness := 350, max_brightness := 360, avg_frp := 13,
    max_frp := 30, years_with_fires := 5, primary_cause := "Unknown", fire_density := 4 }

/-- C3 counterexample: in October no seasonal multiplier is applied — the
returned probability 84 differs from the probability under each of the four
claimed multipliers (92, 91, 60 and 72 respectively), refuting "exactly one
of the four seasonal multipliers" for every month. -/
theorem ignition_october_counterexample :
    (calculate_ignition_probability 27.5 84.3 (some statsC3) "Terai Plains" 10).probability = 84
    ∧ ignitionWithMult statsC3 "Terai Plains" 1.25 = 92
    ∧ ignitionWithMult statsC3 "Terai Plains" 1.10 = 91
    ∧ ignitionWithMult statsC3 "Terai Plains" 0.70 = 60
    ∧ ignitionWithMult statsC3 "Terai Plains" 0.85 = 72 := by
  have hpre : (ignitionPreSeasonal statsC3).1 = 78 := by
    norm_num [ignitionPreSeasonal, statsC3]
  have hreg : (regionalBonus "Terai Plains").1 = 6 := rfl
  have h0 : (calculate_ignition_probability 27.5 84.3 (some statsC3) "Terai Plains"
        10).probability
      = min 92 (max 5 ((ignitionSeasonalStep 10 (ignitionPreSeasonal statsC3).1).1
        + (regionalBonus "Terai Plains").1)) := rfl
  refine ⟨?_, ?_, ?_, ?_, ?_⟩
  · rw [h0, hpre, hreg]
    norm_num [ignitionSeasonalStep, min_def, max_def]
  all_goals
    simp only [ignitionWithMult, hpre, hreg]
    norm_num [pyInt, min_def, max_def]

/-! ### C6 -/

/-- C6: with null resolved statistics, `calculate_risk_score` returns
exactly `(0.20, "Low", fixed message)` and `calculate_ignition_probability`
returns exactly probability 12, level "Low" and the single fixed factor
string, for every coordinate, district, region and month. -/
theorem null_stats_defaults (latitude longitude : ℚ) (district_info : Option DistrictInfo)
    (region_name : String) (month : ℕ) :
    calculate_risk_score latitude longitude none district_info month
      = (0.20, "Low", "No significant fire history detected in this area.")
    ∧ calculate_ignition_probability latitude longitude none region_name month
      = { probability := 12, level := "Low",
          factors := ["Insufficient historical data - area shows minimal fire activity"] } :=
  ⟨rfl, rfl⟩

/-! ### C7 -/

/-- C7: when the classifier path fails (model or encoder missing, unknown
region name, or inference raising — all modelled as
`classifier_confidence = none`, the caught-exception outcome), `predict_risk`
still returns a result, equal to the heuristic-only level, score and reason;
the failure never propagates past the scorer. -/
theorem classifier_failure_heuristic_fallback (latitude longitude : ℚ)
    (region_name : String) (district_info : Option DistrictInfo)
    (s : LocationStats) (month : ℕ) :
    predict_risk latitude longitude region_name district_info (some s) month none
      = ((calculate_risk_score latitude longitude (some s) district_info month).2.1,
         (calculate_risk_score latitude longitude (some s) district_info month).1,
         generate_risk_reason
           (calculate_risk_score latitude longitude (some s) district_info month).2.1
           (some s) region_name latitude longitude) := rfl

/-! ### C8 -/

/-- C8 (amended): the grid key is deterministic, and for nonnegative
coordinates (in particular every validated Nepal coordinate) it is the
nearest-lower-multiple-of-0.25 quantization, with two coordinates sharing a
key iff they lie in the same 0.25°×0.25° floor cell.  (For negative
coordinates the source's `int()` truncates toward zero instead.) -/
theorem grid_key_cells (lat lon lat' lon' : ℚ)
    (h1 : 0 ≤ lat) (h2 : 0 ≤ lon) (h3 : 0 ≤ lat') (h4 : 0 ≤ lon') :
    get_grid_key lat lon = get_grid_key lat lon
    ∧ get_grid_key lat lon = ((⌊lat / 0.25⌋ : ℚ) * 0.25, (⌊lon / 0.25⌋ : ℚ) * 0.25)
    ∧ (get_grid_key lat lon = get_grid_key lat' lon'
        ↔ floorCell lat lon = floorCell lat' lon') := by
  refine ⟨rfl, grid_key_floor h1 h2, ?_⟩
  rw [grid_key_floor h1 h2, grid_key_floor h3 h4]
  unfold floorCell
  simp only [Prod.mk.injEq]
  constructor
  · rintro ⟨ha, hb⟩
    have ha' := mul_right_cancel₀ (show (0.25:ℚ) ≠ 0 by norm_num) ha
    have hb' := mul_right_cancel₀ (show (0.25:ℚ) ≠ 0 by norm_num) hb
    exact ⟨by exact_mod_cast ha', by exact_mod_cast hb'⟩
  · rintro ⟨ha, hb⟩
    rw [ha, hb]
    exact ⟨rfl, rfl⟩

/-- C8 witness: the amended properties at concrete coordinates. -/
theorem grid_key_cells_witness :
    get_grid_key 27.7 85.3 = ((⌊(27.7:ℚ) / 0.25⌋ : ℚ) * 0.25, (⌊(85.3:ℚ) / 0.25⌋ : ℚ) * 0.25)
    ∧ (get_grid_key 27.7 85.3 = get_grid_key 27.6 85.3
        ↔ floorCell 27.7 85.3 = floorCell 27.6 85.3) :=
  ⟨(grid_key_cells 27.7 85.3 27.6 85.3 (by norm_num) (by norm_num) (by norm_num)
      (by norm_num)).2.1,
   (grid_key_cells 27.7 85.3 27.6 85.3 (by norm_num) (by norm_num) (by norm_num)
      (by norm_num)).2.2⟩

/-- C8 counterexample: `int()` truncates toward zero, so `(-0.1, 85)` and
`(0.1, 85)` receive the same grid key although they lie in different
nearest-lower-multiple-of-0.25 cells — the claimed "same key iff same cell"
fails for all coordinates. -/
theorem grid_key_negative_counterexample :
    get_grid_key (-0.1) 85 = get_grid_key 0.1 85
    ∧ floorCell (-0.1) 85 ≠ floorCell 0.1 85 := by
  constructor
  · norm_num [get_grid_key, pyInt, Prod.ext_iff]
  · norm_num [floorCell, Prod.ext_iff]

/-! ### C4 -/

/-- C4: with a loaded archive, the resolver (i) answers a cached grid key
from the cache with `fire_density = fire_count / 625`, (ii) otherwise scans
the `±radius/111.0` × `±radius/85.0` bounding box and aggregates the
matches, and (iii) returns `none` (not an error) when that scan matches
nothing. -/
theorem resolver_three_paths (data : List FireEvent)
    (cache : List ((ℚ × ℚ) × GridCellStats)) (latitude longitude radius_km : ℚ) :
    (∀ c, lookupCache cache (get_grid_key latitude longitude) = some c →
      get_location_specific_stats (some data) cache latitude longitude radius_km
        = some (statsOfCell c)
      ∧ (statsOfCell c).fire_density = (c.fire_count : ℚ) / 625)
    ∧ (lookupCache cache (get_grid_key latitude longitude) = none →
      data.filter (inBox latitude longitude (radius_km / 111.0) (radius_km / 85.0)) ≠ [] →
      get_location_specific_stats (some data) cache latitude longitude radius_km
        = some (aggregateNearby
            (data.filter (inBox latitude longitude (radius_km / 111.0) (radius_km / 85.0)))
            radius_km))
    ∧ (lookupCache cache (get_grid_key latitude longitude) = none →
      data.filter (inBox latitude longitude (radius_km / 111.0) (radius_km / 85.0)) = [] →
      get_location_specific_stats (some data) cache latitude longitude radius_km = none) := by
  refine ⟨fun c hc => ⟨?_, rfl⟩, fun hn hne => ?_, fun hn he => ?_⟩
  · simp only [get_location_specific_stats, hc]
  · have hbool :
        (data.filter (inBox latitude longitude (radius_km / 111.0) (radius_km / 85.0))).isEmpty
          = false := by
      simp only [List.isEmpty_eq_false_iff_exists_mem]
      exact List.exists_mem_of_ne_nil _ hne
    simp only [get_location_specific_stats, hn, hbool, Bool.false_eq_true, if_false]
  · simp only [get_location_specific_stats, hn, he, List.isEmpty_nil, if_true]

/-- The event, cell and cache of the C4 witness. -/
def evC4 : FireEvent :=
  { latitude := 27.6, longitude := 85.3, brightness := 340, frp := 10,
    acq_date := "2021-04-15", year := 2021, month := 4,
    likely_cause := "Agricultural Burning" }

def cellC4 : GridCellStats :=
  { avg_brightness := 340, max_brightness := 350, std_brightness := 10, fire_count := 625,
    avg_frp := 9, max_frp := 20, years_with_fires := 4,
    primary_cause := "Agricultural Burning" }

def cacheC4 : List ((ℚ × ℚ) × GridCellStats) := [((27.5, 85.25), cellC4)]

/-- C4 witness: the three resolver paths at concrete inputs. -/
theorem resolver_three_paths_witness :
    get_location_specific_stats (some [evC4]) cacheC4 27.6 85.3 50 = some (statsOfCell cellC4)
    ∧ get_location_specific_stats (some [evC4]) [] 27.6 85.3 50
        = some (aggregateNearby ([evC4].filter (inBox 27.6 85.3 (50 / 111.0) (50 / 85.0))) 50)
    ∧ get_location_specific_stats (some ([] : List FireEvent)) [] 27.6 85.3 50 = none := by
  have hkey : get_grid_key 27.6 85.3 = ((27.5 : ℚ), (85.25 : ℚ)) := by
    norm_num [get_grid_key, pyInt, Prod.ext_iff]
  refine ⟨((resolver_three_paths [evC4] cacheC4 27.6 85.3 50).1 cellC4 ?_).1,
    (resolver_three_paths [evC4] [] 27.6 85.3 50).2.1 rfl ?_,
    (resolver_three_paths [] [] 27.6 85.3 50).2.2 rfl rfl⟩
  · rw [hkey]
    simp [lookupCache, cacheC4, List.find?]
  · simp only [List.filter, inBox, evC4]
    norm_num

/-! ### C5 -/

/-- C5: with a loaded archive the history query scans at `radius_km`, on an
empty match retries exactly once at doubled ranges with
`actual_radius = radius_km * 2`, and on a second empty match returns the
well-formed all-zero summary with `search_radius_km = radius_km * 2` —
never `none` and (being a total function of the archive) never an
exception. -/
theorem history_retry_policy (data : List FireEvent) (latitude longitude radius_km : ℚ) :
    (data.filter (inBox latitude longitude (radius_km / 111.0) (radius_km / 85.0)) ≠ [] →
      get_nearby_fire_history (some data) latitude longitude radius_km
        = some (buildHistorySummary
            (data.filter (inBox latitude longitude (radius_km / 111.0) (radius_km / 85.0)))
            radius_km))
    ∧ (data.filter (inBox latitude longitude (radius_km / 111.0) (radius_km / 85.0)) = [] →
      data.filter (inBox latitude longitude (radius_km / 111.0 * 2) (radius_km / 85.0 * 2)) ≠ [] →
      get_nearby_fire_history (some data) latitude longitude radius_km
        = some (buildHistorySummary
            (data.filter (inBox latitude longitude (radius_km / 111.0 * 2) (radius_km / 85.0 * 2)))
            (radius_km * 2)))
    ∧ (data.filter (inBox latitude longitude (radius_km / 111.0) (radius_km / 85.0)) = [] →
      data.filter (inBox latitude longitude (radius_km / 111.0 * 2) (radius_km / 85.0 * 2)) = [] →
      get_nearby_fire_history (some data) latitude longitude radius_km
        = some (emptyHistorySummary (radius_km * 2))
      ∧ (emptyHistorySummary (radius_km * 2)).search_radius_km = radius_km * 2
      ∧ (emptyHistorySummary (radius_km * 2)).recent_fires = []
      ∧ (emptyHistorySummary (radius_km * 2)).yearly_counts = []
      ∧ (emptyHistorySummary (radius_km * 2)).monthly_distribution = []
      ∧ (emptyHistorySummary (radius_km * 2)).stats.total_nearby_fires = 0
      ∧ (emptyHistorySummary (radius_km * 2)).stats.avg_brightness = 0
      ∧ (emptyHistorySummary (radius_km * 2)).stats.avg_frp = 0
      ∧ (emptyHistorySummary (radius_km * 2)).stats.fire_density_per_100sqkm = 0) := by
  refine ⟨fun hne => ?_, fun he hne => ?_, fun he he2 => ?_⟩
  · have hbool :
        (data.filter (inBox latitude longitude (radius_km / 111.0) (radius_km / 85.0))).isEmpty
          = false := by
      simp only [List.isEmpty_eq_false_iff_exists_mem]
      exact List.exists_mem_of_ne_nil _ hne
    simp only [get_nearby_fire_history, hbool, Bool.false_eq_true, if_false]
  · have hbool2 :
        (data.filter (inBox latitude longitude (radius_km / 111.0 * 2)
          (radius_km / 85.0 * 2))).isEmpty = false := by
      simp only [List.isEmpty_eq_false_iff_exists_mem]
      exact List.exists_mem_of_ne_nil _ hne
    simp only [get_nearby_fire_history, he, List.isEmpty_nil, if_true, hbool2,
      Bool.false_eq_true, if_false]
  · refine ⟨?_, rfl, rfl, rfl, rfl, rfl, rfl, rfl, rfl⟩
    simp only [get_nearby_fire_history, he, he2, List.isEmpty_nil, if_true]

/-- C5 witness: a far-remote coordinate with an archive matching nothing at
`r = 50` and `r = 100` yields the all-zero summary with search radius 100. -/
theorem history_retry_policy_witness :
    get_nearby_fire_history (some ([] : List FireEvent)) 29.9 83.1 50
      = some (emptyHistorySummary (50 * 2))
    ∧ (emptyHistorySummary ((50 : ℚ) * 2)).search_radius_km = 50 * 2
    ∧ ((50 : ℚ) * 2) = 100 :=
  ⟨((history_retry_policy [] 29.9 83.1 50).2.2 rfl rfl).1,
   ((history_retry_policy [] 29.9 83.1 50).2.2 rfl rfl).2.1, by norm_num⟩

/-! ### C9: list extrema and rounding lemmas -/

theorem le_foldl_max (l : List ℚ) (a : ℚ) : a ≤ l.foldl max a := by
  induction l generalizing a with
  | nil => exact le_refl a
  | cons x xs ih =>
    rw [List.foldl_cons]
    exact le_trans (le_max_left a x) (ih (max a x))

theorem mem_le_foldl_max {x : ℚ} (l : List ℚ) (a : ℚ) (hx : x ∈ l) :
    x ≤ l.foldl max a := by
  induction l generalizing a with
  | nil => cases hx
  | cons y ys ih =>
    rw [List.foldl_cons]
    rcases List.mem_cons.mp hx with h | h
    · subst h
      exact le_trans (le_max_right a x) (le_foldl_max ys (max a x))
    · exact ih (max a y) h

theorem le_maxQ {x : ℚ} {l : List ℚ} (hx : x ∈ l) : x ≤ maxQ l := by
  cases l with
  | nil => cases hx
  | cons h t =>
    show x ≤ t.foldl max h
    rcases List.mem_cons.mp hx with h1 | h1
    · subst h1
      exact le_foldl_max t x
    · exact mem_le_foldl_max t h h1

theorem foldl_min_le (l : List ℚ) (a : ℚ) : l.foldl min a ≤ a := by
  induction l generalizing a with
  | nil => exact le_refl a
  | cons x xs ih =>
    rw [List.foldl_cons]
    exact le_trans (ih (min a x)) (min_le_left a x)

theorem foldl_min_le_mem {x : ℚ} (l : List ℚ) (a : ℚ) (hx : x ∈ l) :
    l.foldl min a ≤ x := by
  induction l generalizing a with
  | nil => cases hx
  | cons y ys ih =>
    rw [List.foldl_cons]
    rcases List.mem_cons.mp hx with h | h
    · subst h
      exact le_trans (foldl_min_le ys (min a x)) (min_le_right a x)
    · exact ih (min a y) h

theorem minQ_le {x : ℚ} {l : List ℚ} (hx : x ∈ l) : minQ l ≤ x := by
  cases l with
  | nil => cases hx
  | cons h t =>
    show t.foldl min h ≤ x
    rcases List.mem_cons.mp hx with h1 | h1
    · subst h1
      exact foldl_min_le t x
    · exact foldl_min_le_mem t h h1

theorem foldl_max_const (l : List ℚ) (a : ℚ) (h : ∀ x ∈ l, x = a) :
    l.foldl max a = a := by
  induction l with
  | nil => rfl
  | cons y ys ih =>
    rw [List.foldl_cons, h y (List.mem_cons_self y ys), max_self]
    exact ih (fun x hx => h x (List.mem_cons_of_mem y hx))

theorem foldl_min_const (l : List ℚ) (a : ℚ) (h : ∀ x ∈ l, x = a) :
    l.foldl min a = a := by
  induction l with
  | nil => rfl
  | cons y ys ih =>
    rw [List.foldl_cons, h y (List.mem_cons_self y ys), min_self]
    exact ih (fun x hx => h x (List.mem_cons_of_mem y hx))

theorem maxQ_const {l : List ℚ} {a : ℚ} (h : ∀ x ∈ l, x = a) (hne : l ≠ []) :
    maxQ l = a := by
  cases l with
  | nil => exact absurd rfl hne
  | cons y ys =>
    show ys.foldl max y = a
    rw [h y (List.mem_cons_self y ys)]
    exact foldl_max_const ys a (fun x hx => h x (List.mem_cons_of_mem y hx))

theorem minQ_const {l : List ℚ} {a : ℚ} (h : ∀ x ∈ l, x = a) (hne : l ≠ []) :
    minQ l = a := by
  cases l with
  | nil => exact absurd rfl hne
  | cons y ys =>
    show ys.foldl min y = a
    rw [h y (List.mem_cons_self y ys)]
    exact foldl_min_const ys a (fun x hx => h x (List.mem_cons_of_mem y hx))

/-- Half-even rounding always lands between floor and ceiling. -/
theorem pyRoundInt_bounds (q : ℚ) : ⌊q⌋ ≤ pyRoundInt q ∧ pyRoundInt q ≤ ⌈q⌉ := by
  have hfq : (⌊q⌋ : ℚ) ≤ q := Int.floor_le q
  simp only [pyRoundInt]
  split_ifs with h1 h2 h3
  · exact ⟨le_refl _, Int.floor_le_ceil q⟩
  · refine ⟨le_of_lt (lt_add_one _), ?_⟩
    have hlt : (⌊q⌋ : ℚ) < q := by linarith
    exact Int.add_one_le_iff.mpr (Int.lt_ceil.mpr hlt)
  · exact ⟨le_refl _, Int.floor_le_ceil q⟩
  · refine ⟨le_of_lt (lt_add_one _), ?_⟩
    have hlt : (⌊q⌋ : ℚ) < q := by linarith
    exact Int.add_one_le_iff.mpr (Int.lt_ceil.mpr hlt)

theorem pyRound_bounds {q : ℚ} (h0 : 0 ≤ q) (h1 : q ≤ 1) (d : ℕ) :
    0 ≤ pyRound q d ∧ pyRound q d ≤ 1 := by
  have hb := pyRoundInt_bounds (q * 10 ^ d)
  have hpow : (0 : ℚ) < 10 ^ d := by positivity
  unfold pyRound
  constructor
  · apply div_nonneg _ hpow.le
    have hfl : (0 : ℤ) ≤ ⌊q * 10 ^ d⌋ :=
      Int.floor_nonneg.mpr (mul_nonneg h0 hpow.le)
    exact_mod_cast le_trans hfl hb.1
  · rw [div_le_one hpow]
    have hcl : ⌈q * 10 ^ d⌉ ≤ (10 : ℤ) ^ d := by
      apply Int.ceil_le.mpr
      push_cast
      nlinarith
    calc (pyRoundInt (q * 10 ^ d) : ℚ) ≤ (⌈q * 10 ^ d⌉ : ℚ) := by exact_mod_cast hb.2
      _ ≤ ((10 : ℤ) ^ d : ℚ) := by exact_mod_cast hcl
      _ = (10 : ℚ) ^ d := by push_cast; ring

theorem pyRound_zero (d : ℕ) : pyRound 0 d = 0 := by
  norm_num [pyRound, pyRoundInt]

/-- The normalized intensity of any sample member lies in `[0, 1]`. -/
theorem intensity_mem_bounds (sample : List FireEvent) (e : FireEvent) (he : e ∈ sample) :
    0 ≤ pyRound ((e.brightness - minQ (sample.map FireEvent.brightness)) /
        (if maxQ (sample.map FireEvent.brightness) ≠ minQ (sample.map FireEvent.brightness)
         then maxQ (sample.map FireEvent.brightness) - minQ (sample.map FireEvent.brightness)
         else 1)) 2
    ∧ pyRound ((e.brightness - minQ (sample.map FireEvent.brightness)) /
        (if maxQ (sample.map FireEvent.brightness) ≠ minQ (sample.map FireEvent.brightness)
         then maxQ (sample.map FireEvent.brightness) - minQ (sample.map FireEvent.brightness)
         else 1)) 2 ≤ 1 := by
  have hmem : e.brightness ∈ sample.map FireEvent.brightness :=
    List.mem_map_of_mem FireEvent.brightness he
  have hmin : minQ (sample.map FireEvent.brightness) ≤ e.brightness := minQ_le hmem
  have hmax : e.brightness ≤ maxQ (sample.map FireEvent.brightness) := le_maxQ hmem
  by_cases hne : maxQ (sample.map FireEvent.brightness) ≠ minQ (sample.map FireEvent.brightness)
  · rw [if_pos hne]
    have hlt : minQ (sample.map FireEvent.brightness)
        < maxQ (sample.map FireEvent.brightness) :=
      lt_of_le_of_ne (le_trans hmin hmax) (Ne.symm hne)
    have h0 : 0 ≤ (e.brightness - minQ (sample.map FireEvent.brightness)) /
        (maxQ (sample.map FireEvent.brightness) - minQ (sample.map FireEvent.brightness)) :=
      div_nonneg (by linarith) (by linarith)
    have h1 : (e.brightness - minQ (sample.map FireEvent.brightness)) /
        (maxQ (sample.map FireEvent.brightness) - minQ (sample.map FireEvent.brightness)) ≤ 1 := by
      rw [div_le_one (by linarith)]
      linarith
    exact pyRound_bounds h0 h1 2
  · rw [if_neg hne]
    push_neg at hne
    have hbe : e.brightness = minQ (sample.map FireEvent.brightness) :=
      le_antisymm (hne ▸ hmax) hmin
    rw [hbe, sub_self, zero_div, pyRound_zero]
    norm_num

theorem heatmapPoints_intensity_bounds (nearby : List FireEvent) :
    ∀ p ∈ heatmapPoints nearby, 0 ≤ p.intensity ∧ p.intensity ≤ 1 := by
  intro p hp
  simp only [heatmapPoints] at hp
  obtain ⟨e, he, rfl⟩ := List.mem_map.mp hp
  exact intensity_mem_bounds _ e he

theorem heatmapPoints_length (nearby : List FireEvent) :
    (heatmapPoints nearby).length = min nearby.length 3000 := by
  simp only [heatmapPoints, List.length_map]
  split_ifs with h
  · simp only [sampleSeed42, List.length_take]
    omega
  · omega

theorem heatmapPoints_const (nearby : List FireEvent) (b0 : ℚ)
    (hc : ∀ e ∈ nearby, e.brightness = b0) :
    ∀ p ∈ heatmapPoints nearby, p.intensity = 0 := by
  intro p hp
  simp only [heatmapPoints] at hp
  obtain ⟨e, he, rfl⟩ := List.mem_map.mp hp
  have hsub : ∀ x ∈ (if nearby.length > 3000 then sampleSeed42 nearby else nearby),
      x ∈ nearby := by
    intro x hx
    split_ifs at hx with h
    · exact List.take_subset 3000 nearby hx
    · exact hx
  have hall : ∀ b ∈ ((if nearby.length > 3000 then sampleSeed42 nearby
      else nearby).map FireEvent.brightness), b = b0 := by
    intro b hb
    obtain ⟨x, hx, rfl⟩ := List.mem_map.mp hb
    exact hc x (hsub x hx)
  have hnn : ((if nearby.length > 3000 then sampleSeed42 nearby
      else nearby).map FireEvent.brightness) ≠ [] :=
    List.ne_nil_of_mem (List.mem_map_of_mem FireEvent.brightness he)
  have hmaxc := maxQ_const hall hnn
  have hminc := minQ_const hall hnn
  show pyRound ((e.brightness - _) / _) 2 = 0
  rw [hmaxc, hminc, if_neg (by simp), hc e (hsub e he), sub_self, zero_div, pyRound_zero]

/-- C9: every heatmap intensity lies in `[0, 1]`; the returned point list is
capped at 3000 points (the fixed-seed sample, a deterministic function of
the matches); and when all matching brightness values are equal every
intensity is the fixed constant 0 — no NaN and no division error. -/
theorem heatmap_safety (data : List FireEvent) (latitude longitude radius_km : ℚ) (b0 : ℚ) :
    (∀ p ∈ get_location_heatmap (some data) latitude longitude radius_km,
      0 ≤ p.intensity ∧ p.intensity ≤ 1)
    ∧ (get_location_heatmap (some data) latitude longitude radius_km).length
        = min (data.filter (inBox latitude longitude (radius_km / 111.0)
            (radius_km / 85.0))).length 3000
    ∧ ((∀ e ∈ data.filter (inBox latitude longitude (radius_km / 111.0) (radius_km / 85.0)),
        e.brightness = b0) →
      ∀ p ∈ get_location_heatmap (some data) latitude longitude radius_km,
        p.intensity = 0) := by
  have hdef : get_location_heatmap (some data) latitude longitude radius_km
      = (if (data.filter (inBox latitude longitude (radius_km / 111.0)
            (radius_km / 85.0))).isEmpty
         then []
         else heatmapPoints (data.filter (inBox latitude longitude (radius_km / 111.0)
            (radius_km / 85.0)))) := rfl
  by_cases hemp : (data.filter (inBox latitude longitude (radius_km / 111.0)
      (radius_km / 85.0))).isEmpty
  · have hnil : data.filter (inBox latitude longitude (radius_km / 111.0)
        (radius_km / 85.0)) = [] := List.isEmpty_iff.mp hemp
    rw [hdef, if_pos hemp]
    refine ⟨by simp, ?_, by simp⟩
    rw [hnil]
    simp
  · rw [hdef, if_neg hemp]
    exact ⟨heatmapPoints_intensity_bounds _, heatmapPoints_length _,
      fun hc => heatmapPoints_const _ b0 hc⟩

/-- The event and heat point of the C9 witness. -/
def evC9 : FireEvent :=
  { latitude := 27.6, longitude := 85.3, brightness := 340, frp := 10,
    acq_date := "2021-04-15", year := 2021, month := 4,
    likely_cause := "Agricultural Burning" }

def ptC9 : HeatPoint :=
  { lat := pyRound 27.6 4, lng := pyRound 85.3 4, intensity := pyRound ((340 - 340) / 1) 2 }

/-- C9 witness: the point produced for a single matched event has intensity
within `[0, 1]`, and — the brightness sample being degenerate — exactly 0. -/
theorem heatmap_safety_witness :
    (0 ≤ ptC9.intensity ∧ ptC9.intensity ≤ 1) ∧ ptC9.intensity = 0 := by
  have h1 : [evC9].filter (inBox 27.6 85.3 (75 / 111.0) (75 / 85.0)) = [evC9] := by
    simp only [List.filter, inBox, evC9]
    norm_num
  have hres : get_location_heatmap (some [evC9]) 27.6 85.3 75 = [ptC9] := by
    have hdef : get_location_heatmap (some [evC9]) 27.6 85.3 75
        = (if ([evC9].filter (inBox 27.6 85.3 (75 / 111.0) (75 / 85.0))).isEmpty
           then []
           else heatmapPoints ([evC9].filter (inBox 27.6 85.3 (75 / 111.0) (75 / 85.0)))) := rfl
    rw [hdef, h1]
    simp only [List.isEmpty_cons, Bool.false_eq_true, if_false, heatmapPoints, sampleSeed42]
    norm_num [maxQ, minQ, ptC9, evC9]
  have hmem : ptC9 ∈ get_location_heatmap (some [evC9]) 27.6 85.3 75 := by
    rw [hres]
    exact List.mem_singleton.mpr rfl
  refine ⟨(heatmap_safety [evC9] 27.6 85.3 75 340).1 ptC9 hmem,
    (heatmap_safety [evC9] 27.6 85.3 75 340).2.2 ?_ ptC9 hmem⟩
  rw [h1]
  intro e hee
  rw [List.mem_singleton.mp hee]
  rfl

/-! ### C10 -/

/-- The cell, event and cache of the C10 instance: both paths report
`fire_count = 1`, with densities `1/625` and `1/(π·50²)·100`. -/
def cellC10 : GridCellStats :=
  { avg_brightness := 340, max_brightness := 350, std_brightness := 10, fire_count := 1,
    avg_frp := 9, max_frp := 20, years_with_fires := 1,
    primary_cause := "Agricultural Burning" }

def evC10 : FireEvent :=
  { latitude := 29.6, longitude := 85.3, brightness := 340, frp := 5,
    acq_date := "2020-04-01", year := 2020, month := 4,
    likely_cause := "Agricultural Burning" }

def cacheC10 : List ((ℚ × ℚ) × GridCellStats) := [((27.5, 85.25), cellC10)]

/-- C10: the grid-index path normalizes `fire_density` as
`fire_count / 625` while the fallback scan normalizes it as
`n / (π·r²) · 100`, so the same field carries unit-inconsistent values
depending on the path — witnessed by two resolutions with the same
`fire_count = 1` whose densities differ. -/
theorem density_units_mismatch (data : List FireEvent)
    (cache : List ((ℚ × ℚ) × GridCellStats)) (latitude longitude radius_km : ℚ) :
    (∀ c, lookupCache cache (get_grid_key latitude longitude) = some c →
      ∃ s, get_location_specific_stats (some data) cache latitude longitude radius_km
          = some s
        ∧ s.fire_density = (c.fire_count : ℚ) / 625)
    ∧ (lookupCache cache (get_grid_key latitude longitude) = none →
      data.filter (inBox latitude longitude (radius_km / 111.0) (radius_km / 85.0)) ≠ [] →
      ∃ s, get_location_specific_stats (some data) cache latitude longitude radius_km
          = some s
        ∧ s.fire_density
          = ((data.filter (inBox latitude longitude (radius_km / 111.0)
              (radius_km / 85.0))).length : ℚ) / (piF * radius_km * radius_km) * 100)
    ∧ ((statsOfCell cellC10).fire_density = (1 : ℚ) / 625
      ∧ (aggregateNearby [evC10] 50).fire_density = (1 : ℚ) / (piF * 50 * 50) * 100
      ∧ (statsOfCell cellC10).fire_count = (aggregateNearby [evC10] 50).fire_count
      ∧ (statsOfCell cellC10).fire_density ≠ (aggregateNearby [evC10] 50).fire_density) := by
  refine ⟨fun c hc => ⟨statsOfCell c, ?_, rfl⟩, fun hn hne => ?_, ?_, ?_, rfl, ?_⟩
  · simp only [get_location_specific_stats, hc]
  · refine ⟨aggregateNearby (data.filter (inBox latitude longitude (radius_km / 111.0)
      (radius_km / 85.0))) radius_km, ?_, rfl⟩
    have hbool :
        (data.filter (inBox latitude longitude (radius_km / 111.0) (radius_km / 85.0))).isEmpty
          = false := by
      simp only [List.isEmpty_eq_false_iff_exists_mem]
      exact List.exists_mem_of_ne_nil _ hne
    simp only [get_location_specific_stats, hn, hbool, Bool.false_eq_true, if_false]
  · norm_num [statsOfCell, cellC10]
  · norm_num [aggregateNearby, evC10]
  · norm_num [statsOfCell, cellC10, aggregateNearby, evC10, piF]

/-- C10 witness: both resolver paths at concrete inputs, each reporting its
own density normalization. -/
theorem density_units_mismatch_witness :
    (∃ s, get_location_specific_stats (some [evC10]) cacheC10 27.6 85.3 50 = some s
      ∧ s.fire_density = ((cellC10.fire_count : ℚ)) / 625)
    ∧ (∃ s, get_location_specific_stats (some [evC10]) [] 29.6 85.3 50 = some s
      ∧ s.fire_density
        = ((([evC10].filter (inBox 29.6 85.3 (50 / 111.0) (50 / 85.0))).length : ℚ))
            / (piF * 50 * 50) * 100) := by
  constructor
  · refine (density_units_mismatch [evC10] cacheC10 27.6 85.3 50).1 cellC10 ?_
    have hkey : get_grid_key 27.6 85.3 = ((27.5 : ℚ), (85.25 : ℚ)) := by
      norm_num [get_grid_key, pyInt, Prod.ext_iff]
    rw [hkey]
    simp [lookupCache, cacheC10, List.find?]
  · refine (density_units_mismatch [evC10] [] 29.6 85.3 50).2.1 rfl ?_
    simp only [List.filter, inBox, evC10]
    norm_num

end ForestSathi
